import Mathlib

/-!
A shallow embedding of the LinkBot ban-propagation and alt-detection core
(src/cogs/bans.py, src/cogs/alts.py, src/cogs/review.py), with theorems
checking the natural-language specification against the code.

Timestamps are modelled as `Int` seconds, integrity (reliability) as `Int`
(the SQL column is an integer, clamped via MIN/MAX in every update), and
database tables as Lean lists of records.
-/

namespace LinkBot

/-- Status values stored in the `bans.status` column: the code writes the
strings Pending, Accepted, Dismissed, Review, Rejected. -/
inductive BanStatus
  | pending
  | accepted
  | dismissed
  | review
  | rejected
deriving DecidableEq, Repr

/-- One row of the `bans` table (bans.py, on_ready CREATE TABLE bans). -/
structure BanRec where
  id : Nat
  userId : Nat
  originServerId : Nat
  flaggedBy : Nat
  banReason : String
  flaggedAt : Int
  status : BanStatus
deriving DecidableEq, Repr

/-- The per-server preferences JSON blob: alert_channel_id, auto_ban,
blocked_servers, ping_role_id (bans.py, send_ban_alerts reads these). -/
structure Prefs where
  alertChannelId : Option Nat
  autoBan : Bool
  blockedServers : List Nat
  pingRoleId : Option Nat
deriving DecidableEq, Repr

/-- One row of the `servers` table: server_id, integrity, blacklisted,
preferences. -/
structure ServerRow where
  serverId : Nat
  integrity : Int
  blacklisted : Bool
  prefs : Prefs
deriving DecidableEq, Repr

/-- One row of the `ban_actions` log table (ban_id, action, by_user_id,
timestamp); `action` is the literal string the code inserts. -/
structure ActionRec where
  banId : Nat
  action : String
  byUserId : Nat
  timestamp : Int
deriving DecidableEq, Repr

/-- The relevant database state: the `bans`, `servers` and `ban_actions`
tables. -/
structure DB where
  bans : List BanRec
  servers : List ServerRow
  banActions : List ActionRec
deriving DecidableEq, Repr

/-- `SELECT ... FROM servers WHERE server_id = ?`. -/
def findServer (db : DB) (sid : Nat) : Option ServerRow :=
  db.servers.find? (fun s => s.serverId == sid)

/-- `SELECT ... FROM bans WHERE id = ?`. -/
def findBan (db : DB) (bid : Nat) : Option BanRec :=
  db.bans.find? (fun b => b.id == bid)

/-- Status of a ban record, read back from the table. -/
def statusOf (db : DB) (bid : Nat) : Option BanStatus :=
  (findBan db bid).map (fun b => b.status)

/-- Integrity of a server, read back from the table. -/
def integrityOf (db : DB) (sid : Nat) : Option Int :=
  (findServer db sid).map (fun s => s.integrity)

/-- `UPDATE bans SET status = ? WHERE id = ?`. -/
def setBanStatus (db : DB) (bid : Nat) (st : BanStatus) : DB :=
  { db with bans := db.bans.map (fun b => if b.id == bid then { b with status := st } else b) }

/-- `SET integrity = MIN(integrity + 1, 100)` — the clamped increment used by
accept resolution and by the auto-ban path. -/
def clampInc (r : Int) : Int := min (r + 1) 100

/-- `SET integrity = MAX(integrity - 1, 0)` — the clamped decrement used by
dismiss resolution. -/
def clampDec (r : Int) : Int := max (r - 1) 0

/-- `UPDATE servers SET integrity = f(integrity) WHERE server_id = ?`. -/
def bumpIntegrity (db : DB) (sid : Nat) (f : Int → Int) : DB :=
  { db with servers :=
      db.servers.map (fun s =>
        if s.serverId == sid then { s with integrity := f s.integrity } else s) }

/-- `INSERT INTO ban_actions ...`. -/
def addAction (db : DB) (a : ActionRec) : DB :=
  { db with banActions := db.banActions ++ [a] }

/-- The two peer decisions offered by the BanAlertView buttons. -/
inductive Decision
  | accept
  | dismiss
deriving DecidableEq, Repr

/-- BanAlertView.accept_button / dismiss_button (bans.py 56-175): set the
ban's status, apply the clamped integrity adjustment to the origin server,
and append a ban_actions row.  The code performs these updates
unconditionally — it never reads the current status first. -/
def resolveBan (db : DB) (banId originServerId actorId : Nat) (d : Decision) (now : Int) : DB :=
  match d with
  | .accept =>
      addAction (bumpIntegrity (setBanStatus db banId .accepted) originServerId clampInc)
        { banId := banId, action := "Accepted", byUserId := actorId, timestamp := now }
  | .dismiss =>
      addAction (bumpIntegrity (setBanStatus db banId .dismissed) originServerId clampDec)
        { banId := banId, action := "Dismissed", byUserId := actorId, timestamp := now }

/-- ReviewView.accept_button / reject_button (review.py): unconditionally set
the flag's status to Accepted or Rejected; no integrity change, no action
row. -/
def reviewResolve (db : DB) (flagId : Nat) (accept : Bool) : DB :=
  setBanStatus db flagId (if accept then .accepted else .rejected)

/-! ## Rate limiter (BanRateLimit, bans.py 13-41) -/

/-- Reading `self.server_bans[server_id]` after the `if server_id not in
self.server_bans` initialisation: a missing key reads as `[]`. -/
def alistFind (l : List (Nat × List Int)) (sid : Nat) : List Int :=
  match l.find? (fun p => p.1 == sid) with
  | some p => p.2
  | none => []

/-- Assignment `self.server_bans[server_id] = ts` on a Python dict. -/
def alistSet (l : List (Nat × List Int)) (sid : Nat) (ts : List Int) :
    List (Nat × List Int) :=
  if l.any (fun p => p.1 == sid) then
    l.map (fun p => if p.1 == sid then (sid, ts) else p)
  else
    l ++ [(sid, ts)]

/-- State of `BanRateLimit`: max_bans, time_window, and the `server_bans`
dict mapping server id to a list of alert timestamps. -/
structure BanRateLimit where
  maxBans : Nat
  timeWindow : Int
  serverBans : List (Nat × List Int)
deriving DecidableEq, Repr

def rlLookup (rl : BanRateLimit) (sid : Nat) : List Int :=
  alistFind rl.serverBans sid

def rlSet (rl : BanRateLimit) (sid : Nat) (ts : List Int) : BanRateLimit :=
  { rl with serverBans := alistSet rl.serverBans sid ts }

/-- `BanRateLimit.can_send_alert`: keep only timestamps with
`current_time - ts < time_window`, then admit and append `now` iff fewer
than `max_bans` remain.  The purged list is written back even on denial. -/
def canSendAlert (rl : BanRateLimit) (sid : Nat) (now : Int) : Bool × BanRateLimit :=
  let kept := (rlLookup rl sid).filter (fun ts => now - ts < rl.timeWindow)
  if kept.length < rl.maxBans then
    (true, rlSet rl sid (kept ++ [now]))
  else
    (false, rlSet rl sid kept)

/-- The default construction `BanRateLimit()` in `Bans.__init__`:
max_bans = 5, time_window = 180 s, empty dict. -/
def rlDefault : BanRateLimit := { maxBans := 5, timeWindow := 180, serverBans := [] }

/-! ## Fan-out (Bans.send_ban_alerts, bans.py 517-617) -/

/-- Notifications the fan-out emits: the auto-ban notice embed, or the
manual Accept/Dismiss alert (send_ban_alert). -/
inductive Note
  | autoBanNotice (guildId banId : Nat)
  | manualAlert (guildId banId : Nat)
deriving DecidableEq, Repr

/-- Platform-side facts about one guild in `bot.guilds` during fan-out:
whether `guild.get_channel` resolves the configured alert channel, and
whether `guild.ban` would succeed. -/
structure PeerCtx where
  guildId : Nat
  channelResolvable : Bool
  banOk : Bool
deriving DecidableEq, Repr

/-- One iteration of the `for guild in self.bot.guilds` loop in
send_ban_alerts: skip the origin, unknown or blacklisted servers, servers
blocking the origin, and servers without a resolvable alert channel; then
either auto-ban (when auto_ban is set and the origin integrity snapshot is
at least 50) — on success setting the ban status to Accepted, incrementing
the origin integrity (capped at 100) and sending the auto-ban notice, on
failure falling back to the manual alert — or send the manual alert. -/
def processPeer (originServerId : Nat) (originIntegrity : Int) (banId : Nat)
    (ctx : PeerCtx) (db : DB) : DB × List Note :=
  if ctx.guildId == originServerId then (db, [])
  else
    match findServer db ctx.guildId with
    | none => (db, [])
    | some row =>
      if row.blacklisted then (db, [])
      else if row.prefs.blockedServers.contains originServerId then (db, [])
      else
        match row.prefs.alertChannelId with
        | none => (db, [])
        | some _ =>
          if !ctx.channelResolvable then (db, [])
          else if row.prefs.autoBan && decide (50 ≤ originIntegrity) then
            if ctx.banOk then
              (bumpIntegrity (setBanStatus db banId .accepted) originServerId clampInc,
               [Note.autoBanNotice ctx.guildId banId])
            else (db, [Note.manualAlert ctx.guildId banId])
          else (db, [Note.manualAlert ctx.guildId banId])

/-- The whole send_ban_alerts loop, folded over the guild list.  The
integrity used for the auto-ban gate is the snapshot taken before the loop
(it is passed in as an argument in the code). -/
def fanOut (originServerId : Nat) (originIntegrity : Int) (banId : Nat) :
    List PeerCtx → DB → DB × List Note
  | [], db => (db, [])
  | ctx :: rest, db =>
    let r1 := processPeer originServerId originIntegrity banId ctx db
    let r2 := fanOut originServerId originIntegrity banId rest r1.1
    (r2.1, r1.2 ++ r2.2)

/-! ## Ingestion (Bans.on_member_ban, bans.py 409-515) -/

/-- Triggering result of one on_member_ban invocation. -/
inductive IngestResult
  | ignoredUnknownOrBlacklisted
  | ignoredNoAudit
  | ignoredNoReason
  | ignoredSelfBan
  | rateLimited
  | duplicateSameOrigin
  | duplicateAnyOrigin
  | created (banId : Nat)
deriving DecidableEq, Repr

/-- `SELECT id FROM bans WHERE user_id = ? AND origin_server_id = ? AND
flagged_at > ?` — non-empty result. -/
def hasRecentBanFrom (db : DB) (userId originServerId : Nat) (threshold : Int) : Bool :=
  db.bans.any (fun b =>
    b.userId == userId && b.originServerId == originServerId && threshold < b.flaggedAt)

/-- `SELECT id FROM bans WHERE user_id = ? AND flagged_at > ?` — non-empty
result. -/
def hasRecentBanAny (db : DB) (userId : Nat) (threshold : Int) : Bool :=
  db.bans.any (fun b => b.userId == userId && threshold < b.flaggedAt)

/-- The AUTOINCREMENT id assigned by the INSERT: larger than every existing
id, hence fresh and monotonically assigned. -/
def nextBanId (db : DB) : Nat :=
  db.bans.foldl (fun m b => max m b.id) 0 + 1

/-- Preferences parsed from an absent/NULL blob: `{}` with every lookup
falling back to its default. -/
def defaultPrefs : Prefs :=
  { alertChannelId := none, autoBan := false, blockedServers := [], pingRoleId := none }

/-- State carried across on_member_ban invocations: the database, the
in-memory rate limiter, and the stream of notifications sent so far. -/
structure BansState where
  db : DB
  rl : BanRateLimit
  notes : List Note
deriving DecidableEq, Repr

/-- Audit-log observation for the ban: `none` when the audit log is
unreadable (discord.Forbidden), otherwise the optional reason text and the
moderator id of the matching entry. -/
abbrev AuditInfo := Option (Option String × Nat)

/-- Bans.on_member_ban: ignore unknown/blacklisted origins, unreadable audit
logs, reason-less bans and the bot's own bans; then rate-limit check, the
two dedup queries over a 5-minute (300 s) window, the INSERT of the
Pending event, the integrity snapshot (inserting a default-100 server row
if the origin vanished), and fan-out via send_ban_alerts. -/
def onMemberBan (st : BansState) (guildId userId botId : Nat) (audit : AuditInfo)
    (now : Int) (peers : List PeerCtx) : BansState × IngestResult :=
  match findServer st.db guildId with
  | none => (st, .ignoredUnknownOrBlacklisted)
  | some row =>
    if row.blacklisted then (st, .ignoredUnknownOrBlacklisted)
    else
      match audit with
      | none => (st, .ignoredNoAudit)
      | some (reasonOpt, modId) =>
        match reasonOpt with
        | none => (st, .ignoredNoReason)
        | some reason =>
          if modId == botId then (st, .ignoredSelfBan)
          else
            let res := canSendAlert st.rl guildId now
            if !res.1 then ({ st with rl := res.2 }, .rateLimited)
            else
              let threshold := now - 300
              if hasRecentBanFrom st.db userId guildId threshold then
                ({ st with rl := res.2 }, .duplicateSameOrigin)
              else if hasRecentBanAny st.db userId threshold then
                ({ st with rl := res.2 }, .duplicateAnyOrigin)
              else
                let bid := nextBanId st.db
                let db1 : DB :=
                  { st.db with bans := st.db.bans ++
                      [{ id := bid, userId := userId, originServerId := guildId,
                         flaggedBy := modId, banReason := reason, flaggedAt := now,
                         status := .pending }] }
                let withInteg : DB × Int :=
                  match findServer db1 guildId with
                  | some r => (db1, r.integrity)
                  | none =>
                    ({ db1 with servers := db1.servers ++
                        [{ serverId := guildId, integrity := 100, blacklisted := false,
                           prefs := defaultPrefs }] }, 100)
                let fo := fanOut guildId withInteg.2 bid peers withInteg.1
                ({ db := fo.1, rl := res.2, notes := st.notes ++ fo.2 }, .created bid)

/-! ## Alt detection (Alts cog, alts.py) -/

/-- Observable attributes of a joining member used by the heat rules:
account age in whole days (`(now - created_at).days`), avatar presence,
username (`member.name`) and display name. -/
structure MemberAttrs where
  accountAgeDays : Int
  hasAvatar : Bool
  username : String
  displayName : String
deriving DecidableEq, Repr

/-- Per-rule enable flags from the settings JSON `rules` map. -/
structure RuleFlags where
  newAccount : Bool
  noAvatar : Bool
  altName : Bool
  defaultName : Bool
  prevBan : Bool
  quickJoin : Bool
deriving DecidableEq, Repr

/-- The alt_settings JSON blob: enabled, threshold, rules, auto_kick,
auto_ban. -/
structure AltConfig where
  enabled : Bool
  threshold : Int
  rules : RuleFlags
  autoKick : Bool
  autoBan : Bool
deriving DecidableEq, Repr

/-- The defaults used in on_member_join when no settings row exists:
everything enabled, threshold 100, no auto actions. -/
def defaultAltConfig : AltConfig :=
  { enabled := true, threshold := 100,
    rules := { newAccount := true, noAvatar := true, altName := true,
               defaultName := true, prevBan := true, quickJoin := true },
    autoKick := false, autoBan := false }

/-- Does `sub` occur at the start of `l`? -/
def beginsWith : List Char → List Char → Bool
  | [], _ => true
  | _ :: _, [] => false
  | c :: cs, d :: ds => c == d && beginsWith cs ds

/-- Python substring test `sub in l`. -/
def containsSub (sub : List Char) : List Char → Bool
  | [] => beginsWith sub []
  | c :: ds => beginsWith sub (c :: ds) || containsSub sub ds

/-- `s.lower()` on the character sequence (ASCII view). -/
def lowerStr (s : String) : List Char :=
  s.data.map Char.toLower

/-- ASCII letter class `[a-zA-Z]` of the default-name regex. -/
def isAsciiLetter (c : Char) : Bool :=
  (('a' ≤ c) && (c ≤ 'z')) || (('A' ≤ c) && (c ≤ 'Z'))

/-- Digit class of the default-name regex (ASCII view of Python `\d`). -/
def isDigitChar (c : Char) : Bool :=
  ('0' ≤ c) && (c ≤ '9')

/-- Exactly four digits. -/
def fourDigits : List Char → Bool
  | [a, b, c, d] => isDigitChar a && isDigitChar b && isDigitChar c && isDigitChar d
  | _ => false

/-- `re.match(r'^[a-zA-Z]+\d{4}$', name)`: one or more letters followed by
exactly four digits, consuming the whole string. -/
def lettersThenFour : List Char → Bool
  | [] => false
  | c :: rest => isAsciiLetter c && (fourDigits rest || lettersThenFour rest)

/-- Alts.check_previous_ban_with_same_name (alts.py 834-853): the function
runs a query but then returns False unconditionally — the comment in the
source says username matching is not implemented.  Kept as the stub the
code is. -/
def checkPrevBanSameName (_db : DB) (_guildId _userId : Nat) (_username : String) : Bool :=
  false

/-- Alts.check_quick_join: another user's timestamp in the guild's
recent_joins list within 120 s of now. -/
def checkQuickJoin (recentJoins : List (Nat × Int)) (userId : Nat) (now : Int) : Bool :=
  recentJoins.any (fun p => p.1 != userId && decide (now - p.2 < 120))

/-- The heat-score accumulation in Alts.on_member_join (alts.py 623-665):
six independently toggled rules, each adding its fixed weight when its
predicate holds. -/
def heatScore (rules : RuleFlags) (attrs : MemberAttrs) (db : DB) (guildId userId : Nat)
    (recentJoins : List (Nat × Int)) (now : Int) : Int :=
  (if rules.newAccount && decide (attrs.accountAgeDays < 7) then 50 else 0)
  + (if rules.noAvatar && !attrs.hasAvatar then 30 else 0)
  + (if rules.altName &&
        (containsSub "alt".data (lowerStr attrs.username)
          || containsSub "alt".data (lowerStr attrs.displayName)) then 30 else 0)
  + (if rules.defaultName && lettersThenFour attrs.username.data then 20 else 0)
  + (if rules.prevBan && checkPrevBanSameName db guildId userId attrs.username then 40 else 0)
  + (if rules.quickJoin && checkQuickJoin recentJoins userId now then 25 else 0)

/-- One rule as the spec describes it: an enable flag, a predicate value and
a weight. -/
structure RuleEval where
  enabled : Bool
  hit : Bool
  weight : Int
deriving DecidableEq, Repr

/-- The six rules of the table in spec section 4.4, evaluated on the same
inputs the code reads. -/
def ruleEvals (rules : RuleFlags) (attrs : MemberAttrs) (db : DB) (guildId userId : Nat)
    (recentJoins : List (Nat × Int)) (now : Int) : List RuleEval :=
  [ { enabled := rules.newAccount, hit := decide (attrs.accountAgeDays < 7), weight := 50 },
    { enabled := rules.noAvatar, hit := !attrs.hasAvatar, weight := 30 },
    { enabled := rules.altName,
      hit := containsSub "alt".data (lowerStr attrs.username)
          || containsSub "alt".data (lowerStr attrs.displayName), weight := 30 },
    { enabled := rules.defaultName, hit := lettersThenFour attrs.username.data, weight := 20 },
    { enabled := rules.prevBan,
      hit := checkPrevBanSameName db guildId userId attrs.username, weight := 40 },
    { enabled := rules.quickJoin, hit := checkQuickJoin recentJoins userId now, weight := 25 } ]

/-- The spec's reading of the total: the sum of the weights of the rules
that are enabled and whose predicate holds. -/
def specWeightSum (evals : List RuleEval) : Int :=
  ((evals.filter (fun r => r.enabled && r.hit)).map (fun r => r.weight)).sum

/-- Outcome of one Alts.on_member_join invocation at the caller level. -/
inductive AltOutcome
  | noAction
  | autoKicked
  | autoBanned
  | manualAlert
deriving DecidableEq, Repr

/-- The decision logic of Alts.on_member_join (alts.py 588-797): disabled
system or a dismissal entry suppress everything before scoring; a score
below threshold, or no configured/resolvable alert channel, gives no
action; otherwise auto-kick (falling back to the manual alert when the
kick fails), else auto-ban (same fallback), else the manual
Kick/Ban/Dismiss alert. -/
def onMemberJoinAlt (cfg? : Option AltConfig) (dismissed : List (Nat × Nat))
    (guildId userId : Nat) (attrs : MemberAttrs) (db : DB)
    (recentJoins : List (Nat × Int)) (now : Int)
    (alertChannelOk kickOk banOk : Bool) : AltOutcome :=
  let cfg := cfg?.getD defaultAltConfig
  if !cfg.enabled then .noAction
  else if dismissed.contains (guildId, userId) then .noAction
  else
    let score := heatScore cfg.rules attrs db guildId userId recentJoins now
    if score < cfg.threshold then .noAction
    else if !alertChannelOk then .noAction
    else if cfg.autoKick then
      if kickOk then .autoKicked else .manualAlert
    else if cfg.autoBan then
      if banOk then .autoBanned else .manualAlert
    else .manualAlert

/-- One row of the `alt_actions` log table. -/
structure AltActionRec where
  serverId : Nat
  userId : Nat
  action : String
  byUserId : Nat
  timestamp : Int
deriving DecidableEq, Repr

/-- Alt-side persistent state: the alt_actions log and the alt_dismissed
table, keyed by (server_id, user_id). -/
structure AltState where
  altActions : List AltActionRec
  dismissed : List (Nat × Nat)
deriving DecidableEq, Repr

/-- `INSERT OR REPLACE INTO alt_dismissed` under the (server_id, user_id)
primary key: membership-preserving insertion. -/
def insertDismiss (l : List (Nat × Nat)) (g u : Nat) : List (Nat × Nat) :=
  if l.contains (g, u) then l else l ++ [(g, u)]

/-- Alts.log_alt_action (alts.py 878-899): append the action row, and when
the action is the string "dismissed" also record the DismissalEntry. -/
def logAltAction (st : AltState) (guildId userId : Nat) (action : String)
    (byUserId : Nat) (now : Int) : AltState :=
  let st1 : AltState :=
    { st with altActions := st.altActions ++
        [{ serverId := guildId, userId := userId, action := action,
           byUserId := byUserId, timestamp := now }] }
  if action == "dismissed" then
    { st1 with dismissed := insertDismiss st1.dismissed guildId userId }
  else st1

/-- Alts.is_user_dismissed: the alt_dismissed row exists. -/
def isUserDismissed (st : AltState) (guildId userId : Nat) : Bool :=
  st.dismissed.contains (guildId, userId)

/-! ## Derived notions used by the theorems -/

/-- The status written by a peer decision. -/
def decisionStatus : Decision → BanStatus
  | .accept => .accepted
  | .dismiss => .dismissed

/-- The clamped integrity adjustment a peer decision applies. -/
def decisionAdjust : Decision → Int → Int
  | .accept => clampInc
  | .dismiss => clampDec

/-- The ban_actions row a peer decision inserts. -/
def actionRecOf (banId actorId : Nat) (d : Decision) (now : Int) : ActionRec :=
  match d with
  | .accept => { banId := banId, action := "Accepted", byUserId := actorId, timestamp := now }
  | .dismiss => { banId := banId, action := "Dismissed", byUserId := actorId, timestamp := now }

/-- One clamped reliability adjustment: increment on accept or a successful
auto-ban, decrement on dismiss. -/
inductive Adjust
  | inc
  | dec
deriving DecidableEq, Repr

def applyAdjust : Adjust → Int → Int
  | .inc, r => clampInc r
  | .dec, r => clampDec r

/-- A node's reliability after a sequence of accept/dismiss/auto-act
adjustments, starting from the default 100 the code inserts for a new
server row. -/
def reliabilityAfter (l : List Adjust) : Int :=
  l.foldl (fun r a => applyAdjust a r) 100

/-- The immutable identity of a ban record: everything except the mutable
status column. -/
def banKey (b : BanRec) : Nat × Nat × Nat × Int :=
  (b.id, b.userId, b.originServerId, b.flaggedAt)

/-- Number of enforcement-event records for a subject. -/
def subjectEventCount (db : DB) (u : Nat) : Nat :=
  db.bans.countP (fun b => b.userId == u)

/-- The integrity-independent view of the servers table (id, blacklist
flag, preferences). -/
def serverView (s : ServerRow) : Nat × Bool × Prefs :=
  (s.serverId, s.blacklisted, s.prefs)

def serversView (db : DB) : List (Nat × Bool × Prefs) :=
  db.servers.map serverView

/-- Blacklist flag and preferences of a server, looked up by id. -/
def findServerView (db : DB) (sid : Nat) : Option (Bool × Prefs) :=
  (findServer db sid).map (fun s => (s.blacklisted, s.prefs))

/-! ## Helper lemmas -/

theorem alistSet_cons_of_ne (p : Nat × List Int) (rest : List (Nat × List Int))
    (sid : Nat) (ts : List Int) (hb : (p.1 == sid) = false) :
    alistSet (p :: rest) sid ts = p :: alistSet rest sid ts := by
  have hp : p.1 ≠ sid := beq_eq_false_iff_ne.mp hb
  by_cases hr : rest.any (fun q => q.1 == sid) <;>
    simp [alistSet, hb, hp, hr]

theorem alistFind_cons_of_ne (p : Nat × List Int) (rest : List (Nat × List Int))
    (sid : Nat) (hb : (p.1 == sid) = false) :
    alistFind (p :: rest) sid = alistFind rest sid := by
  simp [alistFind, List.find?, hb]

theorem alistFind_set_same (l : List (Nat × List Int)) (sid : Nat) (ts : List Int) :
    alistFind (alistSet l sid ts) sid = ts := by
  induction l with
  | nil => simp [alistSet, alistFind, List.find?]
  | cons p rest ih =>
    by_cases hp : p.1 = sid
    · simp [alistSet, alistFind, List.find?, hp]
    · have hb : (p.1 == sid) = false := beq_eq_false_iff_ne.mpr hp
      rw [alistSet_cons_of_ne p rest sid ts hb, alistFind_cons_of_ne _ _ _ hb]
      exact ih

theorem alistFind_mapUpd (l : List (Nat × List Int)) (sid sid2 : Nat) (ts : List Int)
    (h : sid2 ≠ sid) :
    alistFind (l.map (fun p => if p.1 == sid then (sid, ts) else p)) sid2 =
      alistFind l sid2 := by
  induction l with
  | nil => rfl
  | cons p rest ih =>
    by_cases hp : p.1 = sid
    · have h1 : (sid == sid2) = false := beq_eq_false_iff_ne.mpr (Ne.symm h)
      have h2 : (p.1 == sid2) = false := by
        subst hp; exact h1
      simp only [List.map_cons, beq_eq_false_iff_ne, hp, beq_self_eq_true, if_pos,
        (by simp [hp] : (p.1 == sid) = true)]
      rw [alistFind_cons_of_ne _ _ _ h1, alistFind_cons_of_ne _ _ _ h2]
      exact ih
    · have hb : (p.1 == sid) = false := beq_eq_false_iff_ne.mpr hp
      simp only [List.map_cons, hb, if_neg, Bool.false_eq_true, not_false_iff]
      by_cases hc : p.1 = sid2
      · simp [alistFind, List.find?, hc]
      · have hcb : (p.1 == sid2) = false := beq_eq_false_iff_ne.mpr hc
        rw [alistFind_cons_of_ne _ _ _ hcb, alistFind_cons_of_ne _ _ _ hcb]
        exact ih

theorem alistFind_set_other (l : List (Nat × List Int)) (sid sid2 : Nat) (ts : List Int)
    (h : sid2 ≠ sid) :
    alistFind (alistSet l sid ts) sid2 = alistFind l sid2 := by
  by_cases ha : l.any (fun p => p.1 == sid)
  · unfold alistSet
    rw [if_pos ha]
    exact alistFind_mapUpd l sid sid2 ts h
  · unfold alistSet
    rw [if_neg ha]
    induction l with
    | nil =>
      have h1 : (sid == sid2) = false := beq_eq_false_iff_ne.mpr (Ne.symm h)
      simp [alistFind, List.find?, h1]
    | cons p rest ih =>
      have hb : (p.1 == sid) = false := by
        by_contra hcon
        exact ha (by simp [List.any_cons, (by simpa using hcon : (p.1 == sid) = true)])
      have ha2 : ¬ rest.any (fun p => p.1 == sid) := by
        intro hcon
        exact ha (by simp [List.any_cons, hcon])
      by_cases hc : p.1 = sid2
      · simp [alistFind, List.find?, hc]
      · have hcb : (p.1 == sid2) = false := beq_eq_false_iff_ne.mpr hc
        rw [List.cons_append, alistFind_cons_of_ne _ _ _ hcb, alistFind_cons_of_ne _ _ _ hcb]
        exact ih ha2

theorem rlLookup_rlSet_same (rl : BanRateLimit) (sid : Nat) (ts : List Int) :
    rlLookup (rlSet rl sid ts) sid = ts :=
  alistFind_set_same rl.serverBans sid ts

theorem rlLookup_rlSet_other (rl : BanRateLimit) (sid sid2 : Nat) (ts : List Int)
    (h : sid2 ≠ sid) : rlLookup (rlSet rl sid ts) sid2 = rlLookup rl sid2 :=
  alistFind_set_other rl.serverBans sid sid2 ts h

theorem findBan_addAction (db : DB) (a : ActionRec) (j : Nat) :
    findBan (addAction db a) j = findBan db j := rfl

theorem findBan_bumpIntegrity (db : DB) (sid : Nat) (f : Int → Int) (j : Nat) :
    findBan (bumpIntegrity db sid f) j = findBan db j := rfl

theorem findServer_setBanStatus (db : DB) (bid : Nat) (st : BanStatus) (sid : Nat) :
    findServer (setBanStatus db bid st) sid = findServer db sid := rfl

theorem findServer_addAction (db : DB) (a : ActionRec) (sid : Nat) :
    findServer (addAction db a) sid = findServer db sid := rfl

theorem findBan_setBanStatus (db : DB) (bid : Nat) (st : BanStatus) (j : Nat) :
    findBan (setBanStatus db bid st) j =
      (findBan db j).map (fun b => if b.id == bid then { b with status := st } else b) := by
  have hpf : ((fun b : BanRec => b.id == j)
        ∘ (fun b : BanRec => if b.id == bid then { b with status := st } else b))
      = fun b : BanRec => b.id == j := by
    funext b
    by_cases hb : (b.id == bid) = true <;> simp [Function.comp, hb]
  unfold findBan setBanStatus
  simp only [List.find?_map, hpf]

theorem findServer_bumpIntegrity (db : DB) (sid0 : Nat) (f : Int → Int) (sid : Nat) :
    findServer (bumpIntegrity db sid0 f) sid =
      (findServer db sid).map (fun s =>
        if s.serverId == sid0 then { s with integrity := f s.integrity } else s) := by
  have hpf : ((fun s : ServerRow => s.serverId == sid)
        ∘ (fun s : ServerRow =>
            if s.serverId == sid0 then { s with integrity := f s.integrity } else s))
      = fun s : ServerRow => s.serverId == sid := by
    funext s
    by_cases hs : (s.serverId == sid0) = true <;> simp [Function.comp, hs]
  unfold findServer bumpIntegrity
  simp only [List.find?_map, hpf]

theorem findBan_resolveBan (db : DB) (banId origin actor : Nat) (d : Decision) (t : Int)
    (j : Nat) :
    findBan (resolveBan db banId origin actor d t) j =
      (findBan db j).map (fun b =>
        if b.id == banId then { b with status := decisionStatus d } else b) := by
  cases d <;>
    simp only [resolveBan, findBan_addAction, findBan_bumpIntegrity, findBan_setBanStatus,
      decisionStatus]

theorem findServer_resolveBan (db : DB) (banId origin actor : Nat) (d : Decision) (t : Int)
    (sid : Nat) :
    findServer (resolveBan db banId origin actor d t) sid =
      (findServer db sid).map (fun s =>
        if s.serverId == origin then { s with integrity := decisionAdjust d s.integrity }
        else s) := by
  cases d <;>
    simp only [resolveBan, findServer_addAction, findServer_setBanStatus,
      findServer_bumpIntegrity, decisionAdjust]

theorem banActions_resolveBan (db : DB) (banId origin actor : Nat) (d : Decision) (t : Int) :
    (resolveBan db banId origin actor d t).banActions =
      db.banActions ++ [actionRecOf banId actor d t] := by
  cases d <;> rfl

theorem onMemberBan_dupFrom (st : BansState) (g u bot mod : Nat) (reason : String)
    (now : Int) (peers : List PeerCtx) (row : ServerRow)
    (hfind : findServer st.db g = some row) (hbl : row.blacklisted = false)
    (hmod : (mod == bot) = false)
    (hadm : (canSendAlert st.rl g now).1 = true)
    (hdup : hasRecentBanFrom st.db u g (now - 300) = true) :
    onMemberBan st g u bot (some (some reason, mod)) now peers =
      ({ st with rl := (canSendAlert st.rl g now).2 }, .duplicateSameOrigin) := by
  unfold onMemberBan
  rw [hfind]
  simp [hbl, hmod, hadm, hdup]

theorem onMemberBan_dupAny (st : BansState) (g u bot mod : Nat) (reason : String)
    (now : Int) (peers : List PeerCtx) (row : ServerRow)
    (hfind : findServer st.db g = some row) (hbl : row.blacklisted = false)
    (hmod : (mod == bot) = false)
    (hadm : (canSendAlert st.rl g now).1 = true)
    (hdup1 : hasRecentBanFrom st.db u g (now - 300) = false)
    (hdup2 : hasRecentBanAny st.db u (now - 300) = true) :
    onMemberBan st g u bot (some (some reason, mod)) now peers =
      ({ st with rl := (canSendAlert st.rl g now).2 }, .duplicateAnyOrigin) := by
  unfold onMemberBan
  rw [hfind]
  simp [hbl, hmod, hadm, hdup1, hdup2]

theorem onMemberBan_created (st : BansState) (g u bot mod : Nat) (reason : String)
    (now : Int) (peers : List PeerCtx) (row : ServerRow)
    (hfind : findServer st.db g = some row) (hbl : row.blacklisted = false)
    (hmod : (mod == bot) = false)
    (hadm : (canSendAlert st.rl g now).1 = true)
    (hdup1 : hasRecentBanFrom st.db u g (now - 300) = false)
    (hdup2 : hasRecentBanAny st.db u (now - 300) = false) :
    onMemberBan st g u bot (some (some reason, mod)) now peers =
      (let bid := nextBanId st.db
       let db1 : DB :=
         { st.db with bans := st.db.bans ++
             [{ id := bid, userId := u, originServerId := g, flaggedBy := mod,
                banReason := reason, flaggedAt := now, status := .pending }] }
       let fo := fanOut g row.integrity bid peers db1
       ({ db := fo.1, rl := (canSendAlert st.rl g now).2, notes := st.notes ++ fo.2 },
        .created bid)) := by
  have hfind2 : findServer
      { st.db with bans := st.db.bans ++
          [{ id := nextBanId st.db, userId := u, originServerId := g, flaggedBy := mod,
             banReason := reason, flaggedAt := now, status := .pending }] } g = some row := hfind
  unfold onMemberBan
  rw [hfind]
  simp [hbl, hmod, hadm, hdup1, hdup2, hfind2]

theorem canSendAlert_admit_of_short (rl : BanRateLimit) (sid : Nat) (now : Int)
    (h : (rlLookup rl sid).length < rl.maxBans) : (canSendAlert rl sid now).1 = true := by
  unfold canSendAlert
  have hle := List.length_filter_le (fun ts => now - ts < rl.timeWindow) (rlLookup rl sid)
  simp [lt_of_le_of_lt hle h]

theorem canSendAlert_snd_admitted (rl : BanRateLimit) (sid : Nat) (now : Int)
    (h : (canSendAlert rl sid now).1 = true) :
    (canSendAlert rl sid now).2 =
      rlSet rl sid (((rlLookup rl sid).filter (fun ts => now - ts < rl.timeWindow))
        ++ [now]) := by
  unfold canSendAlert at h ⊢
  by_cases hc : ((rlLookup rl sid).filter
      (fun ts => now - ts < rl.timeWindow)).length < rl.maxBans
  · simp [hc]
  · simp [hc] at h

theorem canSendAlert_maxBans (rl : BanRateLimit) (sid : Nat) (now : Int) :
    (canSendAlert rl sid now).2.maxBans = rl.maxBans := by
  unfold canSendAlert
  by_cases hc : ((rlLookup rl sid).filter
      (fun ts => now - ts < rl.timeWindow)).length < rl.maxBans <;>
    simp [hc, rlSet]

theorem bansKeys_setBanStatus (db : DB) (bid : Nat) (st : BanStatus) :
    ((setBanStatus db bid st).bans).map banKey = db.bans.map banKey := by
  unfold setBanStatus
  simp only [List.map_map]
  apply List.map_congr_left
  intro b _
  by_cases hb : (b.id == bid) = true <;> simp [banKey, Function.comp, hb]

theorem bansKeys_processPeer (o : Nat) (i : Int) (bid : Nat) (ctx : PeerCtx) (db : DB) :
    ((processPeer o i bid ctx db).1).bans.map banKey = db.bans.map banKey := by
  unfold processPeer
  repeat' split
  all_goals first
    | rfl
    | exact bansKeys_setBanStatus db bid .accepted

theorem bansKeys_fanOut (o : Nat) (i : Int) (bid : Nat) (peers : List PeerCtx) (db : DB) :
    ((fanOut o i bid peers db).1).bans.map banKey = db.bans.map banKey := by
  induction peers generalizing db with
  | nil => rfl
  | cons c rest ih =>
    show ((fanOut o i bid rest (processPeer o i bid c db).1).1).bans.map banKey = _
    rw [ih]
    exact bansKeys_processPeer o i bid c db

theorem serversView_bumpIntegrity (db : DB) (sid : Nat) (f : Int → Int) :
    serversView (bumpIntegrity db sid f) = serversView db := by
  unfold serversView bumpIntegrity
  simp only [List.map_map]
  apply List.map_congr_left
  intro s _
  by_cases hs : (s.serverId == sid) = true <;> simp [serverView, Function.comp, hs]

theorem serversView_processPeer (o : Nat) (i : Int) (bid : Nat) (ctx : PeerCtx) (db : DB) :
    serversView ((processPeer o i bid ctx db).1) = serversView db := by
  unfold processPeer
  repeat' split
  all_goals first
    | rfl
    | exact serversView_bumpIntegrity (setBanStatus db bid .accepted) o clampInc

theorem serversView_fanOut (o : Nat) (i : Int) (bid : Nat) (peers : List PeerCtx) (db : DB) :
    serversView ((fanOut o i bid peers db).1) = serversView db := by
  induction peers generalizing db with
  | nil => rfl
  | cons c rest ih =>
    show serversView ((fanOut o i bid rest (processPeer o i bid c db).1).1) = _
    rw [ih]
    exact serversView_processPeer o i bid c db

theorem findServerView_congr (db1 db2 : DB) (sid : Nat)
    (h : serversView db1 = serversView db2) :
    findServerView db1 sid = findServerView db2 sid := by
  have key : ∀ db : DB, findServerView db sid =
      ((serversView db).find? (fun v => v.1 == sid)).map (fun v => v.2) := by
    intro db
    unfold findServerView findServer serversView
    rw [List.find?_map, Option.map_map]
    rfl
  rw [key, key, h]

theorem exists_row_of_view (db1 db2 : DB) (sid : Nat) (row : ServerRow)
    (h : serversView db1 = serversView db2)
    (hfind : findServer db2 sid = some row) :
    ∃ row1, findServer db1 sid = some row1
      ∧ row1.blacklisted = row.blacklisted ∧ row1.prefs = row.prefs := by
  have h1 : findServerView db1 sid = findServerView db2 sid :=
    findServerView_congr db1 db2 sid h
  unfold findServerView at h1
  rw [hfind] at h1
  cases hf : findServer db1 sid with
  | none =>
    rw [hf] at h1
    exact absurd h1 (by simp)
  | some r1 =>
    rw [hf] at h1
    simp only [Option.map_some', Option.some.injEq, Prod.mk.injEq] at h1
    exact ⟨r1, rfl, h1.1, h1.2⟩

theorem any_map_apply {α β : Type} (l : List α) (f : α → β) (p : β → Bool) :
    (l.map f).any p = l.any (fun a => p (f a)) := by
  induction l with
  | nil => rfl
  | cons a rest ih => simp [List.any_cons, ih]

theorem hasRecentBanFrom_congr (db1 db2 : DB) (u o : Nat) (th : Int)
    (h : db1.bans.map banKey = db2.bans.map banKey) :
    hasRecentBanFrom db1 u o th = hasRecentBanFrom db2 u o th := by
  have key : ∀ db : DB, hasRecentBanFrom db u o th =
      (db.bans.map banKey).any (fun k =>
        k.2.1 == u && k.2.2.1 == o && decide (th < k.2.2.2)) := by
    intro db
    unfold hasRecentBanFrom
    rw [any_map_apply]
    rfl
  rw [key, key, h]

theorem hasRecentBanAny_congr (db1 db2 : DB) (u : Nat) (th : Int)
    (h : db1.bans.map banKey = db2.bans.map banKey) :
    hasRecentBanAny db1 u th = hasRecentBanAny db2 u th := by
  have key : ∀ db : DB, hasRecentBanAny db u th =
      (db.bans.map banKey).any (fun k => k.2.1 == u && decide (th < k.2.2.2)) := by
    intro db
    unfold hasRecentBanAny
    rw [any_map_apply]
    rfl
  rw [key, key, h]

theorem subjectEventCount_congr (db1 db2 : DB) (u : Nat)
    (h : db1.bans.map banKey = db2.bans.map banKey) :
    subjectEventCount db1 u = subjectEventCount db2 u := by
  have key : ∀ db : DB, subjectEventCount db u =
      (db.bans.map banKey).countP (fun k => k.2.1 == u) := by
    intro db
    unfold subjectEventCount
    rw [List.countP_map]
    rfl
  rw [key, key, h]

/-! ## Claim theorems -/

/-- Claim C5: `tryAdmit` (can_send_alert) purges the timestamps older than
the window and admits exactly when fewer than max_bans remain; with the
default maxEvents=5, timeWindow=180 s configuration, five admissions
within the window succeed, the sixth is denied, and once time has advanced
past 180 s from the oldest retained admission a new admission succeeds. -/
theorem C5_rate_limiter_boundary :
    (∀ (rl : BanRateLimit) (sid : Nat) (now : Int),
      ((canSendAlert rl sid now).1 = true ↔
        ((rlLookup rl sid).filter (fun ts => now - ts < rl.timeWindow)).length < rl.maxBans)
      ∧ rlLookup (canSendAlert rl sid now).2 sid =
          ((rlLookup rl sid).filter (fun ts => now - ts < rl.timeWindow))
            ++ (if (canSendAlert rl sid now).1 then [now] else []))
    ∧ (let r1 := canSendAlert rlDefault 7 0
       let r2 := canSendAlert r1.2 7 10
       let r3 := canSendAlert r2.2 7 20
       let r4 := canSendAlert r3.2 7 30
       let r5 := canSendAlert r4.2 7 40
       let r6 := canSendAlert r5.2 7 50
       let r7 := canSendAlert r6.2 7 181
       [r1.1, r2.1, r3.1, r4.1, r5.1, r6.1, r7.1]
         = [true, true, true, true, true, false, true]) := by
  constructor
  · intro rl sid now
    constructor
    · by_cases h : ((rlLookup rl sid).filter
          (fun ts => now - ts < rl.timeWindow)).length < rl.maxBans <;>
        simp [canSendAlert, h]
    · by_cases h : ((rlLookup rl sid).filter
          (fun ts => now - ts < rl.timeWindow)).length < rl.maxBans <;>
        simp [canSendAlert, h, rlLookup_rlSet_same]
  · decide

/-- Claim C7: starting from the default reliability 100, any finite
sequence of clamped accept/dismiss/auto-act adjustments keeps the score
within 0..100. -/
theorem C7_reliability_clamped (l : List Adjust) :
    0 ≤ reliabilityAfter l ∧ reliabilityAfter l ≤ 100 := by
  have key : ∀ (l : List Adjust) (r : Int), 0 ≤ r → r ≤ 100 →
      0 ≤ l.foldl (fun r a => applyAdjust a r) r
      ∧ l.foldl (fun r a => applyAdjust a r) r ≤ 100 := by
    intro l
    induction l with
    | nil => intro r h0 h1; exact ⟨h0, h1⟩
    | cons a rest ih =>
      intro r h0 h1
      refine ih (applyAdjust a r) ?_ ?_ <;>
        cases a <;> simp [applyAdjust, clampInc, clampDec] <;> omega
  exact key l 100 (by norm_num) (by norm_num)

/-- Claim C9: a Dismiss decision records the DismissalEntry for the
(node, identity) pair, and any later join of that identity on that node
yields no alert and no auto action, whatever the member's attributes,
settings, join context or heat score. -/
theorem C9_dismissal_suppression (st : AltState) (g u a : Nat) (t : Int)
    (cfg? : Option AltConfig) (attrs : MemberAttrs) (db : DB)
    (recentJoins : List (Nat × Int)) (now : Int) (chOk kOk bOk : Bool) :
    isUserDismissed (logAltAction st g u "dismissed" a t) g u = true
    ∧ onMemberJoinAlt cfg? (logAltAction st g u "dismissed" a t).dismissed
        g u attrs db recentJoins now chOk kOk bOk = .noAction := by
  have hmem : (g, u) ∈ (logAltAction st g u "dismissed" a t).dismissed := by
    simp only [logAltAction, beq_self_eq_true, if_pos]
    by_cases hc : (g, u) ∈ st.dismissed <;>
      simp [insertDismiss, hc]
  constructor
  · simpa [isUserDismissed] using hmem
  · by_cases he : (cfg?.getD defaultAltConfig).enabled <;>
      simp [onMemberJoinAlt, he, hmem]

/-- Claim C8: the heat score is a deterministic function of the identity
attributes, context and rule toggles, equal to the sum of the weights of
the enabled rules whose predicates hold; on an identity of age 3 days, no
avatar, handle Alt_User, no quick join, all rules enabled it is
50+30+30 = 110, and with autoKick enabled at threshold 100 the caller
decision for that identity is auto-kick. -/
theorem C8_risk_score_determinism :
    (∀ (rules : RuleFlags) (attrs : MemberAttrs) (db : DB) (guildId userId : Nat)
      (recentJoins : List (Nat × Int)) (now : Int),
      heatScore rules attrs db guildId userId recentJoins now =
        specWeightSum (ruleEvals rules attrs db guildId userId recentJoins now))
    ∧ heatScore defaultAltConfig.rules
        { accountAgeDays := 3, hasAvatar := false,
          username := "Alt_User", displayName := "Alt_User" }
        { bans := [], servers := [], banActions := [] } 1 2 [] 0 = 110
    ∧ onMemberJoinAlt (some { defaultAltConfig with autoKick := true }) [] 1 2
        { accountAgeDays := 3, hasAvatar := false,
          username := "Alt_User", displayName := "Alt_User" }
        { bans := [], servers := [], banActions := [] } [] 0 true true true
        = .autoKicked := by
  refine ⟨?_, by decide, by decide⟩
  intro rules attrs db guildId userId recentJoins now
  simp only [heatScore, specWeightSum, ruleEvals, List.filter_cons, List.filter_nil]
  split_ifs <;> simp_all

/-- Claim C1 is false on the code: resolving an already-resolved event is
not a no-op, and two resolve calls apply two reliability adjustments and
leave the status of the second call, not the first.  Concretely: ban 1 is
Pending with origin integrity 50; Accept then Dismiss leaves status
Dismissed (the second decision), integrity 50 again (adjusted up then
down, where a single adjustment would give 51 or 49), and two action
rows. -/
theorem C1_counterexample :
    (let db0 : DB :=
      { bans := [{ id := 1, userId := 42, originServerId := 10, flaggedBy := 5,
                   banReason := "r", flaggedAt := 0, status := .pending }],
        servers := [{ serverId := 10, integrity := 50, blacklisted := false,
                      prefs := { alertChannelId := none, autoBan := false,
                                 blockedServers := [], pingRoleId := none } }],
        banActions := [] }
     let db1 := resolveBan db0 1 10 7 .accept 10
     let db2 := resolveBan db1 1 10 8 .dismiss 20
     statusOf db1 1 = some .accepted
       ∧ integrityOf db1 10 = some 51
       ∧ db2 ≠ db1
       ∧ statusOf db2 1 = some .dismissed
       ∧ integrityOf db2 10 = some 50
       ∧ db2.banActions.length = 2) := by
  decide

/-- Claim C2 is false on the code: a Dismissed (terminal) event is changed
back to Accepted by a later resolve call — the transition guard the spec
states does not exist. -/
theorem C2_counterexample :
    (let db0 : DB :=
      { bans := [{ id := 1, userId := 42, originServerId := 10, flaggedBy := 5,
                   banReason := "r", flaggedAt := 0, status := .dismissed }],
        servers := [{ serverId := 10, integrity := 80, blacklisted := false,
                      prefs := { alertChannelId := none, autoBan := false,
                                 blockedServers := [], pingRoleId := none } }],
        banActions := [] }
     statusOf db0 1 = some .dismissed
       ∧ statusOf (resolveBan db0 1 10 7 .accept 5) 1 = some .accepted) := by
  decide

/-- Claim C1 (amended): resolve is not guarded by the event's status — each
call unconditionally sets the status to its own decision, appends one
ActionRecord and applies one clamped reliability adjustment to the origin;
hence two resolve calls apply two adjustments and leave the terminal
status equal to the second call's decision. -/
theorem C1_amended (db : DB) (banId origin a1 a2 : Nat) (d1 d2 : Decision) (t1 t2 : Int)
    (b : BanRec) (hb : findBan db banId = some b)
    (s : ServerRow) (hs : findServer db origin = some s) :
    statusOf (resolveBan (resolveBan db banId origin a1 d1 t1) banId origin a2 d2 t2) banId
      = some (decisionStatus d2)
    ∧ integrityOf (resolveBan (resolveBan db banId origin a1 d1 t1) banId origin a2 d2 t2)
        origin = some (decisionAdjust d2 (decisionAdjust d1 s.integrity))
    ∧ (resolveBan (resolveBan db banId origin a1 d1 t1) banId origin a2 d2 t2).banActions
      = db.banActions ++ [actionRecOf banId a1 d1 t1, actionRecOf banId a2 d2 t2] := by
  have hb' : db.bans.find? (fun x => x.id == banId) = some b := hb
  have hbid : b.id = banId := by
    simpa using List.find?_some hb'
  have hs' : db.servers.find? (fun x => x.serverId == origin) = some s := hs
  have hsid : s.serverId = origin := by
    simpa using List.find?_some hs'
  refine ⟨?_, ?_, ?_⟩
  · unfold statusOf
    rw [findBan_resolveBan, findBan_resolveBan, hb]
    simp [hbid]
  · unfold integrityOf
    rw [findServer_resolveBan, findServer_resolveBan, hs]
    simp [hsid]
  · rw [banActions_resolveBan, banActions_resolveBan, List.append_assoc]
    rfl

/-- Witness for C1 (amended) at the concrete database of the
counterexample: two calls leave the second decision and a twice-adjusted
integrity. -/
theorem C1_amended_witness :
    statusOf (resolveBan (resolveBan
        { bans := [{ id := 1, userId := 42, originServerId := 10, flaggedBy := 5,
                     banReason := "r", flaggedAt := 0, status := .pending }],
          servers := [{ serverId := 10, integrity := 50, blacklisted := false,
                        prefs := { alertChannelId := none, autoBan := false,
                                   blockedServers := [], pingRoleId := none } }],
          banActions := [] }
        1 10 7 .accept 10) 1 10 8 .dismiss 20) 1 = some (decisionStatus .dismiss) :=
  (C1_amended
    { bans := [{ id := 1, userId := 42, originServerId := 10, flaggedBy := 5,
                 banReason := "r", flaggedAt := 0, status := .pending }],
      servers := [{ serverId := 10, integrity := 50, blacklisted := false,
                    prefs := { alertChannelId := none, autoBan := false,
                               blockedServers := [], pingRoleId := none } }],
      banActions := [] }
    1 10 7 8 .accept .dismiss 10 20
    { id := 1, userId := 42, originServerId := 10, flaggedBy := 5,
      banReason := "r", flaggedAt := 0, status := .pending } (by decide)
    { serverId := 10, integrity := 50, blacklisted := false,
      prefs := { alertChannelId := none, autoBan := false,
                 blockedServers := [], pingRoleId := none } } (by decide)).1

/-- Claim C2 (amended): peer decisions write Accepted/Dismissed and review
writes Accepted/Rejected, but the transitions are not guarded by the
current status: whatever the event's status — including the terminal
ones — a later resolve or review call overwrites it with its own
decision. -/
theorem C2_amended (db : DB) (bid origin actor : Nat) (t : Int) (b : BanRec)
    (hb : findBan db bid = some b) :
    statusOf (resolveBan db bid origin actor .accept t) bid = some .accepted
    ∧ statusOf (resolveBan db bid origin actor .dismiss t) bid = some .dismissed
    ∧ statusOf (reviewResolve db bid true) bid = some .accepted
    ∧ statusOf (reviewResolve db bid false) bid = some .rejected := by
  have hb' : db.bans.find? (fun x => x.id == bid) = some b := hb
  have hbid : b.id = bid := by
    simpa using List.find?_some hb'
  refine ⟨?_, ?_, ?_, ?_⟩
  · unfold statusOf
    rw [findBan_resolveBan, hb]
    simp [hbid, decisionStatus]
  · unfold statusOf
    rw [findBan_resolveBan, hb]
    simp [hbid, decisionStatus]
  · unfold statusOf reviewResolve
    rw [findBan_setBanStatus, hb]
    simp [hbid]
  · unfold statusOf reviewResolve
    rw [findBan_setBanStatus, hb]
    simp [hbid]

/-- Witness for C2 (amended): the already-Dismissed concrete event of the
counterexample is overwritten by each of the four operations. -/
theorem C2_amended_witness :
    statusOf (resolveBan
        { bans := [{ id := 1, userId := 42, originServerId := 10, flaggedBy := 5,
                     banReason := "r", flaggedAt := 0, status := .dismissed }],
          servers := [{ serverId := 10, integrity := 80, blacklisted := false,
                        prefs := { alertChannelId := none, autoBan := false,
                                   blockedServers := [], pingRoleId := none } }],
          banActions := [] }
        1 10 7 .accept 5) 1 = some .accepted :=
  (C2_amended
    { bans := [{ id := 1, userId := 42, originServerId := 10, flaggedBy := 5,
                 banReason := "r", flaggedAt := 0, status := .dismissed }],
      servers := [{ serverId := 10, integrity := 80, blacklisted := false,
                    prefs := { alertChannelId := none, autoBan := false,
                               blockedServers := [], pingRoleId := none } }],
      banActions := [] }
    1 10 7 5
    { id := 1, userId := 42, originServerId := 10, flaggedBy := 5,
      banReason := "r", flaggedAt := 0, status := .dismissed } (by decide)).1

/-- Claim C3 is false on the code: in the auto-ban success path the event
status is set to Accepted, the origin integrity is incremented and the
auto-ban notice is sent — but no ActionRecord is appended (ban_actions
stays empty), contradicting the claimed `ActionRecord(Accepted)`
append. -/
theorem C3_counterexample :
    (let db0 : DB :=
      { bans := [{ id := 1, userId := 42, originServerId := 10, flaggedBy := 5,
                   banReason := "r", flaggedAt := 0, status := .pending }],
        servers := [{ serverId := 10, integrity := 90, blacklisted := false,
                      prefs := { alertChannelId := none, autoBan := false,
                                 blockedServers := [], pingRoleId := none } },
                    { serverId := 2, integrity := 80, blacklisted := false,
                      prefs := { alertChannelId := some 77, autoBan := true,
                                 blockedServers := [], pingRoleId := none } }],
        banActions := [] }
     let r := processPeer 10 90 1 { guildId := 2, channelResolvable := true, banOk := true } db0
     r.2 = [Note.autoBanNotice 2 1]
       ∧ statusOf r.1 1 = some .accepted
       ∧ integrityOf r.1 10 = some 91
       ∧ r.1.banActions = []) := by
  decide

/-- Claim C3 (amended): for a peer whose configuration admits the event
(known, not blacklisted, origin not blocked, resolvable alert channel)
with autoBan enabled and origin reliability at least 50, a successful
enforcement sets the event status to Accepted, increments the origin
integrity (capped at 100) and notifies the peer of the automatic action —
but appends no ActionRecord (ban_actions is unchanged); a failed
enforcement falls back to the manual decision alert and leaves the
database untouched. -/
theorem C3_amended (origin : Nat) (integ : Int) (bid c : Nat) (ctx : PeerCtx) (db : DB)
    (row : ServerRow)
    (hne : (ctx.guildId == origin) = false)
    (hfind : findServer db ctx.guildId = some row)
    (hbl : row.blacklisted = false)
    (hblock : row.prefs.blockedServers.contains origin = false)
    (hch : row.prefs.alertChannelId = some c)
    (hres : ctx.channelResolvable = true)
    (hab : row.prefs.autoBan = true)
    (hint : 50 ≤ integ) :
    (ctx.banOk = true →
      processPeer origin integ bid ctx db =
        (bumpIntegrity (setBanStatus db bid .accepted) origin clampInc,
         [Note.autoBanNotice ctx.guildId bid])
      ∧ (processPeer origin integ bid ctx db).1.banActions = db.banActions)
    ∧ (ctx.banOk = false →
      processPeer origin integ bid ctx db = (db, [Note.manualAlert ctx.guildId bid])) := by
  have hblock2 : origin ∉ row.prefs.blockedServers := by
    simpa using hblock
  constructor
  · intro hok
    have heq : processPeer origin integ bid ctx db =
        (bumpIntegrity (setBanStatus db bid .accepted) origin clampInc,
         [Note.autoBanNotice ctx.guildId bid]) := by
      unfold processPeer
      simp [hne, hfind, hbl, hblock2, hch, hres, hab, hint, hok]
    refine ⟨heq, ?_⟩
    rw [heq]
    rfl
  · intro hok
    unfold processPeer
    simp [hne, hfind, hbl, hblock2, hch, hres, hab, hint, hok]

/-- Witness for C3 (amended) at the concrete peer of the counterexample. -/
theorem C3_amended_witness :
    processPeer 10 90 1 { guildId := 2, channelResolvable := true, banOk := true }
      { bans := [{ id := 1, userId := 42, originServerId := 10, flaggedBy := 5,
                   banReason := "r", flaggedAt := 0, status := .pending }],
        servers := [{ serverId := 10, integrity := 90, blacklisted := false,
                      prefs := { alertChannelId := none, autoBan := false,
                                 blockedServers := [], pingRoleId := none } },
                    { serverId := 2, integrity := 80, blacklisted := false,
                      prefs := { alertChannelId := some 77, autoBan := true,
                                 blockedServers := [], pingRoleId := none } }],
        banActions := [] } =
      (bumpIntegrity (setBanStatus
        { bans := [{ id := 1, userId := 42, originServerId := 10, flaggedBy := 5,
                     banReason := "r", flaggedAt := 0, status := .pending }],
          servers := [{ serverId := 10, integrity := 90, blacklisted := false,
                        prefs := { alertChannelId := none, autoBan := false,
                                   blockedServers := [], pingRoleId := none } },
                      { serverId := 2, integrity := 80, blacklisted := false,
                        prefs := { alertChannelId := some 77, autoBan := true,
                                   blockedServers := [], pingRoleId := none } }],
          banActions := [] } 1 .accepted) 10 clampInc,
       [Note.autoBanNotice 2 1]) :=
  ((C3_amended 10 90 1 77 { guildId := 2, channelResolvable := true, banOk := true }
    { bans := [{ id := 1, userId := 42, originServerId := 10, flaggedBy := 5,
                 banReason := "r", flaggedAt := 0, status := .pending }],
      servers := [{ serverId := 10, integrity := 90, blacklisted := false,
                    prefs := { alertChannelId := none, autoBan := false,
                               blockedServers := [], pingRoleId := none } },
                  { serverId := 2, integrity := 80, blacklisted := false,
                    prefs := { alertChannelId := some 77, autoBan := true,
                               blockedServers := [], pingRoleId := none } }],
      banActions := [] }
    { serverId := 2, integrity := 80, blacklisted := false,
      prefs := { alertChannelId := some 77, autoBan := true,
                 blockedServers := [], pingRoleId := none } }
    (by decide) (by decide) (by decide) (by decide) (by decide) (by decide) (by decide)
    (by decide)).1 (by decide)).1

/-- Claim C10: for a ban observed at a known, non-blacklisted origin,
an unreadable audit log, a missing ban reason, or a ban issued by the bot
itself makes ingestion silently ignore the event: the state (events, rate
limiter, notifications) is exactly unchanged and no fan-out happens. -/
theorem C10_silent_ignore (st : BansState) (g u bot : Nat) (audit : AuditInfo)
    (now : Int) (peers : List PeerCtx) (row : ServerRow)
    (hfind : findServer st.db g = some row) (hbl : row.blacklisted = false)
    (hcase : audit = none ∨ (∃ m, audit = some (none, m))
      ∨ (∃ r, audit = some (some r, bot))) :
    (onMemberBan st g u bot audit now peers).1 = st
    ∧ ((onMemberBan st g u bot audit now peers).2 = .ignoredNoAudit
       ∨ (onMemberBan st g u bot audit now peers).2 = .ignoredNoReason
       ∨ (onMemberBan st g u bot audit now peers).2 = .ignoredSelfBan) := by
  rcases hcase with h | ⟨m, h⟩ | ⟨r, h⟩ <;> subst h <;> unfold onMemberBan <;>
    rw [hfind] <;> simp [hbl]

/-- Witness for C10: a concrete reason-less ban at a known origin leaves
the state unchanged. -/
theorem C10_silent_ignore_witness :
    (onMemberBan
      { db := { bans := [],
                servers := [{ serverId := 10, integrity := 100, blacklisted := false,
                              prefs := { alertChannelId := none, autoBan := false,
                                         blockedServers := [], pingRoleId := none } }],
                banActions := [] },
        rl := rlDefault, notes := [] } 10 42 99 (some (none, 7)) 0 []).1 =
      { db := { bans := [],
                servers := [{ serverId := 10, integrity := 100, blacklisted := false,
                              prefs := { alertChannelId := none, autoBan := false,
                                         blockedServers := [], pingRoleId := none } }],
                banActions := [] },
        rl := rlDefault, notes := [] } :=
  (C10_silent_ignore
    { db := { bans := [],
              servers := [{ serverId := 10, integrity := 100, blacklisted := false,
                            prefs := { alertChannelId := none, autoBan := false,
                                       blockedServers := [], pingRoleId := none } }],
              banActions := [] },
      rl := rlDefault, notes := [] } 10 42 99 (some (none, 7)) 0 []
    { serverId := 10, integrity := 100, blacklisted := false,
      prefs := { alertChannelId := none, autoBan := false,
                 blockedServers := [], pingRoleId := none } }
    (by decide) (by decide) (Or.inr (Or.inl ⟨7, rfl⟩))).1

/-- Claim C6 is false on the code: on_member_ban consults the rate limiter
before the dedup queries, so a call rejected as a duplicate has already
appended its timestamp to the origin's window.  Concretely, a duplicate
ingest leaves the origin's window [100] where it was [] before. -/
theorem C6_counterexample :
    (let st0 : BansState :=
      { db := { bans := [{ id := 1, userId := 42, originServerId := 10, flaggedBy := 9,
                           banReason := "x", flaggedAt := 0, status := .pending }],
                servers := [{ serverId := 10, integrity := 100, blacklisted := false,
                              prefs := { alertChannelId := none, autoBan := false,
                                         blockedServers := [], pingRoleId := none } }],
                banActions := [] },
        rl := rlDefault, notes := [] }
     let r := onMemberBan st0 10 42 99 (some (some "r", 7)) 100 []
     r.2 = .duplicateSameOrigin
       ∧ rlLookup st0.rl 10 = []
       ∧ rlLookup r.1.rl 10 = [100]) := by
  decide

/-- Claim C6 (amended): ingestion applies rate admission before
deduplication; an ingest call rejected as a duplicate has already passed
tryAdmit, so its timestamp is appended to the origin's purged window — a
duplicate does consume the origin's rate-limit quota. -/
theorem C6_amended (st : BansState) (g u bot mod : Nat) (reason : String) (now : Int)
    (peers : List PeerCtx) (row : ServerRow)
    (hfind : findServer st.db g = some row) (hbl : row.blacklisted = false)
    (hmod : (mod == bot) = false)
    (hadm : (canSendAlert st.rl g now).1 = true)
    (hdup : hasRecentBanFrom st.db u g (now - 300) = true) :
    onMemberBan st g u bot (some (some reason, mod)) now peers =
      ({ st with rl := (canSendAlert st.rl g now).2 }, .duplicateSameOrigin)
    ∧ rlLookup (canSendAlert st.rl g now).2 g =
        ((rlLookup st.rl g).filter (fun ts => now - ts < st.rl.timeWindow)) ++ [now] := by
  refine ⟨onMemberBan_dupFrom st g u bot mod reason now peers row hfind hbl hmod hadm hdup, ?_⟩
  unfold canSendAlert at hadm ⊢
  by_cases h : ((rlLookup st.rl g).filter
      (fun ts => now - ts < st.rl.timeWindow)).length < st.rl.maxBans
  · simp [h, rlLookup_rlSet_same]
  · simp [h] at hadm

/-- Witness for C6 (amended) at the concrete state of the counterexample:
the duplicate's timestamp 100 is appended to the origin's window. -/
theorem C6_amended_witness :
    rlLookup (canSendAlert rlDefault 10 100).2 10 =
      ((rlLookup rlDefault 10).filter (fun ts => 100 - ts < rlDefault.timeWindow))
        ++ [100] :=
  (C6_amended
    { db := { bans := [{ id := 1, userId := 42, originServerId := 10, flaggedBy := 9,
                         banReason := "x", flaggedAt := 0, status := .pending }],
              servers := [{ serverId := 10, integrity := 100, blacklisted := false,
                            prefs := { alertChannelId := none, autoBan := false,
                                       blockedServers := [], pingRoleId := none } }],
              banActions := [] },
      rl := rlDefault, notes := [] } 10 42 99 7 "r" 100 []
    { serverId := 10, integrity := 100, blacklisted := false,
      prefs := { alertChannelId := none, autoBan := false,
                 blockedServers := [], pingRoleId := none } }
    (by decide) (by decide) (by decide) (by decide) (by decide)).2

/-- Claim C4: from a state with no events for the subject, an ingest call
for (subject, origin) creates one EnforcementEvent; a second call for the
same pair within the 5-minute window is rejected as a duplicate (no new
record), as is a same-subject call from any other origin within the
window; and a call for the same pair more than 5 minutes after the first
creates a new event. -/
theorem C4_dedup_window
    (bans0 : List BanRec) (servers0 : List ServerRow) (acts0 : List ActionRec)
    (notes0 : List Note)
    (origin origin2 user bot mod1 mod2 mod3 mod4 : Nat)
    (rs1 rs2 rs3 rs4 : String)
    (t0 t1 t1x t2 : Int)
    (peers1 peers2 peers3 peers4 : List PeerCtx)
    (row row2 : ServerRow)
    (hfind : findServer { bans := bans0, servers := servers0, banActions := acts0 }
      origin = some row)
    (hbl : row.blacklisted = false)
    (hfind2 : findServer { bans := bans0, servers := servers0, banActions := acts0 }
      origin2 = some row2)
    (hbl2 : row2.blacklisted = false)
    (hoo : origin2 ≠ origin)
    (hm1 : (mod1 == bot) = false) (hm2 : (mod2 == bot) = false)
    (hm3 : (mod3 == bot) = false) (hm4 : (mod4 == bot) = false)
    (hfresh : ∀ b ∈ bans0, (b.userId == user) = false)
    (ht1 : t1 - 300 < t0)
    (ht1x : t1x - 300 < t0)
    (ht2 : t0 + 300 < t2) :
    ∃ (st1 st2 st3 st4 : BansState) (bid1 bid4 : Nat),
      onMemberBan { db := { bans := bans0, servers := servers0, banActions := acts0 },
                    rl := rlDefault, notes := notes0 }
          origin user bot (some (some rs1, mod1)) t0 peers1 = (st1, .created bid1)
      ∧ subjectEventCount st1.db user = 1
      ∧ onMemberBan st1 origin user bot (some (some rs2, mod2)) t1 peers2
          = (st2, .duplicateSameOrigin)
      ∧ st2.db = st1.db
      ∧ onMemberBan st2 origin2 user bot (some (some rs3, mod3)) t1x peers3
          = (st3, .duplicateAnyOrigin)
      ∧ st3.db = st2.db
      ∧ onMemberBan st3 origin user bot (some (some rs4, mod4)) t2 peers4
          = (st4, .created bid4)
      ∧ subjectEventCount st4.db user = 2 := by
  let DB0 : DB := { bans := bans0, servers := servers0, banActions := acts0 }
  let st0 : BansState := { db := DB0, rl := rlDefault, notes := notes0 }
  let rec1 : BanRec :=
    { id := nextBanId DB0, userId := user, originServerId := origin,
      flaggedBy := mod1, banReason := rs1, flaggedAt := t0, status := .pending }
  let db1 : DB := { DB0 with bans := bans0 ++ [rec1] }
  let fo1 := fanOut origin row.integrity (nextBanId DB0) peers1 db1
  let st1 : BansState :=
    { db := fo1.1, rl := (canSendAlert rlDefault origin t0).2, notes := notes0 ++ fo1.2 }
  -- call 1: created
  have hadm1 : (canSendAlert rlDefault origin t0).1 = true := by
    apply canSendAlert_admit_of_short
    simp [rlLookup, rlDefault, alistFind, List.find?]
  have hdupF1 : hasRecentBanFrom DB0 user origin (t0 - 300) = false := by
    unfold hasRecentBanFrom
    simp only [List.any_eq_false]
    intro b hb
    simp [hfresh b hb]
  have hdupA1 : hasRecentBanAny DB0 user (t0 - 300) = false := by
    unfold hasRecentBanAny
    simp only [List.any_eq_false]
    intro b hb
    simp [hfresh b hb]
  have e1 : onMemberBan st0 origin user bot (some (some rs1, mod1)) t0 peers1
      = (st1, .created (nextBanId DB0)) :=
    onMemberBan_created st0 origin user bot mod1 rs1 t0 peers1 row hfind hbl hm1
      hadm1 hdupF1 hdupA1
  have hkeys1 : (fo1.1).bans.map banKey = db1.bans.map banKey :=
    bansKeys_fanOut origin row.integrity (nextBanId DB0) peers1 db1
  have hcount1 : subjectEventCount (fo1.1) user = 1 := by
    rw [subjectEventCount_congr (fo1.1) db1 user hkeys1]
    unfold subjectEventCount
    rw [show db1.bans = bans0 ++ [rec1] from rfl, List.countP_append]
    have hz : List.countP (fun b => b.userId == user) bans0 = 0 := by
      rw [List.countP_eq_zero]
      intro b hb
      simp [hfresh b hb]
    rw [hz]
    simp
  have hview1 : serversView (fo1.1) = serversView DB0 :=
    serversView_fanOut origin row.integrity (nextBanId DB0) peers1 db1
  -- call 2: duplicate same origin
  obtain ⟨row1, hf1, hb1, hp1⟩ := exists_row_of_view (fo1.1) DB0 origin row hview1 hfind
  have hb1f : row1.blacklisted = false := by rw [hb1, hbl]
  have hrl1 : rlLookup (canSendAlert rlDefault origin t0).2 origin = [t0] := by
    rw [canSendAlert_snd_admitted _ _ _ hadm1, rlLookup_rlSet_same]
    simp [rlLookup, rlDefault, alistFind, List.find?]
  have hmax1 : (canSendAlert rlDefault origin t0).2.maxBans = 5 := by
    rw [canSendAlert_maxBans]
    rfl
  have hadm2 : (canSendAlert (canSendAlert rlDefault origin t0).2 origin t1).1 = true := by
    apply canSendAlert_admit_of_short
    rw [hrl1, hmax1]
    norm_num
  have hdup2 : hasRecentBanFrom (fo1.1) user origin (t1 - 300) = true := by
    rw [hasRecentBanFrom_congr (fo1.1) db1 user origin (t1 - 300) hkeys1]
    unfold hasRecentBanFrom
    rw [show db1.bans = bans0 ++ [rec1] from rfl]
    simp [List.any_append, ht1]
  let st2 : BansState := { st1 with rl := (canSendAlert st1.rl origin t1).2 }
  have e2 : onMemberBan st1 origin user bot (some (some rs2, mod2)) t1 peers2
      = (st2, .duplicateSameOrigin) :=
    onMemberBan_dupFrom st1 origin user bot mod2 rs2 t1 peers2 row1 hf1 hb1f hm2
      hadm2 hdup2
  -- call 3: duplicate from another origin
  obtain ⟨row2x, hf2, hb2x, hp2⟩ := exists_row_of_view (fo1.1) DB0 origin2 row2 hview1 hfind2
  have hb2f : row2x.blacklisted = false := by rw [hb2x, hbl2]
  have hrl2o : rlLookup st2.rl origin2 = [] := by
    show rlLookup (canSendAlert st1.rl origin t1).2 origin2 = []
    rw [canSendAlert_snd_admitted _ _ _ hadm2, rlLookup_rlSet_other _ _ _ _ hoo]
    show rlLookup (canSendAlert rlDefault origin t0).2 origin2 = []
    rw [canSendAlert_snd_admitted _ _ _ hadm1, rlLookup_rlSet_other _ _ _ _ hoo]
    simp [rlLookup, rlDefault, alistFind, List.find?]
  have hmax2 : st2.rl.maxBans = 5 := by
    show (canSendAlert st1.rl origin t1).2.maxBans = 5
    rw [canSendAlert_maxBans]
    exact hmax1
  have hadm3 : (canSendAlert st2.rl origin2 t1x).1 = true := by
    apply canSendAlert_admit_of_short
    rw [hrl2o, hmax2]
    norm_num
  have hne21 : (origin == origin2) = false := beq_eq_false_iff_ne.mpr (Ne.symm hoo)
  have hdupF3 : hasRecentBanFrom (fo1.1) user origin2 (t1x - 300) = false := by
    rw [hasRecentBanFrom_congr (fo1.1) db1 user origin2 (t1x - 300) hkeys1]
    unfold hasRecentBanFrom
    rw [show db1.bans = bans0 ++ [rec1] from rfl]
    simp only [List.any_append, Bool.or_eq_false_iff]
    constructor
    · simp only [List.any_eq_false]
      intro b hb
      simp [hfresh b hb]
    · simp [hne21]
  have hdupA3 : hasRecentBanAny (fo1.1) user (t1x - 300) = true := by
    rw [hasRecentBanAny_congr (fo1.1) db1 user (t1x - 300) hkeys1]
    unfold hasRecentBanAny
    rw [show db1.bans = bans0 ++ [rec1] from rfl]
    simp [List.any_append, ht1x]
  let st3 : BansState := { st2 with rl := (canSendAlert st2.rl origin2 t1x).2 }
  have e3 : onMemberBan st2 origin2 user bot (some (some rs3, mod3)) t1x peers3
      = (st3, .duplicateAnyOrigin) :=
    onMemberBan_dupAny st2 origin2 user bot mod3 rs3 t1x peers3 row2x hf2 hb2f hm3
      hadm3 hdupF3 hdupA3
  -- call 4: created again after the window
  have hrl3 : rlLookup st3.rl origin
      = ([t0].filter (fun ts => t1 - ts < (canSendAlert rlDefault origin t0).2.timeWindow))
        ++ [t1] := by
    show rlLookup (canSendAlert st2.rl origin2 t1x).2 origin = _
    rw [canSendAlert_snd_admitted _ _ _ hadm3,
      rlLookup_rlSet_other _ _ _ _ (Ne.symm hoo)]
    show rlLookup (canSendAlert (canSendAlert rlDefault origin t0).2 origin t1).2 origin = _
    rw [canSendAlert_snd_admitted _ _ _ hadm2, rlLookup_rlSet_same, hrl1]
  have hmax3 : st3.rl.maxBans = 5 := by
    show (canSendAlert st2.rl origin2 t1x).2.maxBans = 5
    rw [canSendAlert_maxBans]
    exact hmax2
  have hadm4 : (canSendAlert st3.rl origin t2).1 = true := by
    apply canSendAlert_admit_of_short
    rw [hrl3, hmax3]
    have hle : (List.filter
        (fun ts => decide (t1 - ts < (canSendAlert rlDefault origin t0).2.timeWindow))
        [t0]).length ≤ 1 := by
      simpa using List.length_filter_le
        (fun ts => t1 - ts < (canSendAlert rlDefault origin t0).2.timeWindow) [t0]
    simp only [List.length_append, List.length_cons, List.length_nil]
    omega
  have hxt2 : ¬ (t2 - 300 < t0) := by omega
  have hdupF4 : hasRecentBanFrom (fo1.1) user origin (t2 - 300) = false := by
    rw [hasRecentBanFrom_congr (fo1.1) db1 user origin (t2 - 300) hkeys1]
    unfold hasRecentBanFrom
    rw [show db1.bans = bans0 ++ [rec1] from rfl]
    simp only [List.any_append, Bool.or_eq_false_iff]
    constructor
    · simp only [List.any_eq_false]
      intro b hb
      simp [hfresh b hb]
    · simp [hxt2]
  have hdupA4 : hasRecentBanAny (fo1.1) user (t2 - 300) = false := by
    rw [hasRecentBanAny_congr (fo1.1) db1 user (t2 - 300) hkeys1]
    unfold hasRecentBanAny
    rw [show db1.bans = bans0 ++ [rec1] from rfl]
    simp only [List.any_append, Bool.or_eq_false_iff]
    constructor
    · simp only [List.any_eq_false]
      intro b hb
      simp [hfresh b hb]
    · simp [hxt2]
  let rec4 : BanRec :=
    { id := nextBanId (fo1.1), userId := user, originServerId := origin,
      flaggedBy := mod4, banReason := rs4, flaggedAt := t2, status := .pending }
  let db4 : DB := { fo1.1 with bans := (fo1.1).bans ++ [rec4] }
  let fo4 := fanOut origin row1.integrity (nextBanId (fo1.1)) peers4 db4
  let st4 : BansState :=
    { db := fo4.1, rl := (canSendAlert st3.rl origin t2).2, notes := st3.notes ++ fo4.2 }
  have e4 : onMemberBan st3 origin user bot (some (some rs4, mod4)) t2 peers4
      = (st4, .created (nextBanId (fo1.1))) :=
    onMemberBan_created st3 origin user bot mod4 rs4 t2 peers4 row1 hf1 hb1f hm4
      hadm4 hdupF4 hdupA4
  have hcount4 : subjectEventCount (fo4.1) user = 2 := by
    rw [subjectEventCount_congr (fo4.1) db4 user
      (bansKeys_fanOut origin row1.integrity (nextBanId (fo1.1)) peers4 db4)]
    unfold subjectEventCount
    rw [show db4.bans = (fo1.1).bans ++ [rec4] from rfl, List.countP_append]
    have h1 : List.countP (fun b => b.userId == user) (fo1.1).bans = 1 := hcount1
    rw [h1]
    simp
  exact ⟨st1, st2, st3, st4, nextBanId DB0, nextBanId (fo1.1),
    e1, hcount1, e2, rfl, e3, rfl, e4, hcount4⟩

/-- Witness for C4 at a concrete two-server state: calls at t=0, 100, 200
(other origin) and 301 behave as created, duplicate, duplicate, created. -/
theorem C4_dedup_window_witness :
    ∃ (st1 st2 st3 st4 : BansState) (bid1 bid4 : Nat),
      onMemberBan
        { db := { bans := [],
                  servers := [{ serverId := 10, integrity := 100, blacklisted := false,
                                prefs := { alertChannelId := none, autoBan := false,
                                           blockedServers := [], pingRoleId := none } },
                              { serverId := 20, integrity := 100, blacklisted := false,
                                prefs := { alertChannelId := none, autoBan := false,
                                           blockedServers := [], pingRoleId := none } }],
                  banActions := [] },
          rl := rlDefault, notes := [] } 10 42 99 (some (some "a", 7)) 0 []
        = (st1, .created bid1)
      ∧ subjectEventCount st1.db 42 = 1
      ∧ onMemberBan st1 10 42 99 (some (some "b", 8)) 100 [] = (st2, .duplicateSameOrigin)
      ∧ st2.db = st1.db
      ∧ onMemberBan st2 20 42 99 (some (some "c", 11)) 200 [] = (st3, .duplicateAnyOrigin)
      ∧ st3.db = st2.db
      ∧ onMemberBan st3 10 42 99 (some (some "d", 12)) 301 [] = (st4, .created bid4)
      ∧ subjectEventCount st4.db 42 = 2 :=
  C4_dedup_window [] [{ serverId := 10, integrity := 100, blacklisted := false,
                        prefs := { alertChannelId := none, autoBan := false,
                                   blockedServers := [], pingRoleId := none } },
                      { serverId := 20, integrity := 100, blacklisted := false,
                        prefs := { alertChannelId := none, autoBan := false,
                                   blockedServers := [], pingRoleId := none } }] [] []
    10 20 42 99 7 8 11 12 "a" "b" "c" "d" 0 100 200 301 [] [] [] []
    { serverId := 10, integrity := 100, blacklisted := false,
      prefs := { alertChannelId := none, autoBan := false,
                 blockedServers := [], pingRoleId := none } }
    { serverId := 20, integrity := 100, blacklisted := false,
      prefs := { alertChannelId := none, autoBan := false,
                 blockedServers := [], pingRoleId := none } }
    (by decide) (by decide) (by decide) (by decide) (by decide)
    (by decide) (by decide) (by decide) (by decide)
    (by simp) (by decide) (by decide) (by decide)

end LinkBot
